import Mathlib

/-!
# Verification of the unionV2 transfer routine (src/utils.js)

Shallow embedding of the four routines of `src/utils.js`:
`getGasParams`, `getProvider`, `executeTransaction` and `sendToken`.

Remote interactions (RPC liveness probes, fee-data reads, token reads and
transaction submissions) are supplied as explicit oracle values (`ChainEnv`);
every function additionally returns the list of network calls it issued
(`NetEvent`), and the provider cache is threaded explicitly in place of the
module-level `providerCache` map.  JavaScript `BigInt` values are modelled as
`Nat` (all quantities in this code are non-negative), JavaScript exceptions as
`Except JsError`, and `||`-defaulting with its truthiness semantics (both
`undefined` and `0` / the empty string are falsy) is modelled explicitly.
-/

namespace UnionV2

/-- A thrown JavaScript error, reduced to its message. -/
structure JsError where
  message : String
  deriving Repr, DecidableEq

/-- Result object of `provider.getFeeData()`; either fee field may be null. -/
structure FeeData where
  maxFeePerGas : Option Nat
  maxPriorityFeePerGas : Option Nat
  deriving Repr, DecidableEq

/-- The gas-parameter triple produced by `getGasParams`. -/
structure GasParams where
  maxFeePerGas : Nat
  maxPriorityFeePerGas : Nat
  gasLimit : Nat
  deriving Repr, DecidableEq

/-- Caller overrides (`overrideSettings` / `gasSettings`); a missing field is
`none`. -/
structure GasOverrides where
  maxFeePerGas : Option Nat := none
  maxPriorityFeePerGas : Option Nat := none
  gasLimit : Option Nat := none
  deriving Repr, DecidableEq

/-- JS truthiness of an optional numeric value: `undefined` and `0` are falsy. -/
def jsTruthy : Option Nat → Bool
  | none => false
  | some n => if n = 0 then false else true

/-- One gwei in wei, as produced by `ethers.parseUnits(_, "gwei")`. -/
def gwei : Nat := 1000000000

/-- `ethers.parseUnits("20", "gwei")`, the fixed max-fee fallback. -/
def defaultMaxFeePerGas : Nat := 20 * gwei

/-- `ethers.parseUnits("15", "gwei")`, the fixed max-priority-fee fallback. -/
def defaultMaxPriorityFeePerGas : Nat := 15 * gwei

/-- The three fixed fallback values returned by the catch branch of
`getGasParams` (lines 47-51). -/
def defaultGasParams : GasParams :=
  { maxFeePerGas := defaultMaxFeePerGas
    maxPriorityFeePerGas := defaultMaxPriorityFeePerGas
    gasLimit := 500000 }

/-- The `live * 125n / 100n || fallback` part of one fee component.  A null
live field makes `null * 125n` throw a TypeError, modelled as `.error ()`
(the surrounding try/catch turns it into the fixed defaults).  A zero markup
result is falsy, so `||` falls through to the fixed fallback. -/
def liveMarkup (live : Option Nat) (fallback : Nat) : Except Unit Nat :=
  match live with
  | none => .error ()
  | some l => .ok (if l * 125 / 100 = 0 then fallback else l * 125 / 100)

/-- One `override || live * 125n / 100n || fallback` chain of `getGasParams`
(lines 29-34).  `||` short-circuits: a truthy (non-zero) override is returned
without evaluating the live markup at all. -/
def feeComponent (override live : Option Nat) (fallback : Nat) : Except Unit Nat :=
  match override with
  | some v => if v = 0 then liveMarkup live fallback else .ok v
  | none => liveMarkup live fallback

/-- `getGasParams` (src/utils.js lines 25-53).  The network read
`provider.getFeeData()` is passed in as an `Except` value; any exception
inside the try block — the fee read failing, or a null fee field hit by the
`* 125n` markup — lands in the catch branch, which returns the three fixed
defaults. -/
def getGasParams (feeDataRead : Except JsError FeeData)
    (overrideSettings : GasOverrides) : GasParams :=
  match feeDataRead with
  | .error _ => defaultGasParams
  | .ok feeData =>
    match feeComponent overrideSettings.maxFeePerGas feeData.maxFeePerGas
            defaultMaxFeePerGas,
          feeComponent overrideSettings.maxPriorityFeePerGas
            feeData.maxPriorityFeePerGas defaultMaxPriorityFeePerGas with
    | .ok mf, .ok mp =>
      { maxFeePerGas := mf
        maxPriorityFeePerGas := mp
        gasLimit :=
          match overrideSettings.gasLimit with
          | some g => if g = 0 then 500000 else g
          | none => 500000 }
    | _, _ => defaultGasParams

/-- Static configuration imported from `./config.js` (an external collaborator
of the repository; only the shape used by `src/utils.js` is modelled). -/
structure Config where
  CHAINS : String → Option Nat
  RPC_URLS : String → Option String
  RPC_FALLBACKS : String → List String
  UNION_CONTRACT : String → Option String
  TOKENS_WETH : String → Option String

/-- A connected `ethers.JsonRpcProvider` as constructed in `getProvider`
(lines 65-68): the endpoint URL it is bound to, `Number(CHAINS[chainId])`
(`none` models the NaN produced for an unknown chain) and the lower-cased
network name. -/
structure Provider where
  url : String
  chainId : Option Nat
  name : String
  deriving Repr, DecidableEq

/-- The provider cache (`providerCache` map), threaded explicitly. -/
abbrev PCache := List (String × Provider)

/-- An argument of a contract call, as it appears in a submission. -/
inductive Arg where
  | nat : Nat → Arg
  | str : String → Arg
  deriving Repr, DecidableEq

/-- One network call issued by the routines: an RPC liveness probe
(`getBlockNumber`), the fee-data read, the token `decimals`/`balanceOf`/
`allowance` reads, or a transaction submission (operation name, contract
method, argument list). -/
inductive NetEvent where
  | probe : String → NetEvent
  | feeRead : NetEvent
  | decimalsRead : NetEvent
  | balanceRead : NetEvent
  | allowanceRead : NetEvent
  | txSubmit : String → String → List Arg → NetEvent
  deriving Repr, DecidableEq

/-- The candidate endpoint list of `getProvider` (lines 57-61):
`[RPC_URLS[chainId], ...RPC_FALLBACKS[chainId], hardcoded public default]`
with `.filter(Boolean)` dropping undefined and empty entries. -/
def endpointsFor (cfg : Config) (chainId : String) : List String :=
  ((match cfg.RPC_URLS chainId with | some u => [u] | none => []) ++
      cfg.RPC_FALLBACKS chainId ++
      ["https://ethereum-sepolia.publicnode.com"]).filter
    (fun u => !(u = ""))

/-- `chainId.toLowerCase()`, character by character. -/
def jsToLower (s : String) : String := String.mk (s.toList.map Char.toLower)

/-- The provider constructed for a candidate URL (lines 65-68). -/
def mkProvider (cfg : Config) (chainId url : String) : Provider :=
  { url := url, chainId := cfg.CHAINS chainId, name := jsToLower chainId }

/-- The probe loop of `getProvider` (lines 63-86): try each candidate in
order; the first URL whose liveness probe (`getBlockNumber` raced against the
timeout) succeeds wins; failures are logged and skipped. -/
def probeEndpoints (cfg : Config) (probeOk : String → Bool) (chainId : String) :
    List String → Option Provider × List NetEvent
  | [] => (none, [])
  | url :: rest =>
    if probeOk url then
      (some (mkProvider cfg chainId url), [NetEvent.probe url])
    else
      let r := probeEndpoints cfg probeOk chainId rest
      (r.1, NetEvent.probe url :: r.2)

/-- `getProvider` (src/utils.js lines 55-90): answer from the cache when the
chain already has an entry; otherwise probe the candidate list, cache and
return the first live provider, or throw `All RPC endpoints failed` leaving
the cache untouched. -/
def getProvider (cfg : Config) (probeOk : String → Bool) (cache : PCache)
    (chainId : String) : Except JsError Provider × PCache × List NetEvent :=
  match cache.lookup chainId with
  | some p => (.ok p, cache, [])
  | none =>
    match probeEndpoints cfg probeOk chainId (endpointsFor cfg chainId) with
    | (some p, evs) => (.ok p, (chainId, p) :: cache, evs)
    | (none, evs) =>
      (.error ⟨"All RPC endpoints failed for " ++ chainId⟩, cache, evs)

/-- A transaction submitted on-chain (`txResponse`). -/
structure TxResponse where
  hash : String
  gasLimit : Nat
  maxFeePerGas : Nat
  maxPriorityFeePerGas : Nat
  deriving Repr, DecidableEq

/-- A transaction receipt; `status = 1` is on-chain success. -/
structure Receipt where
  hash : String
  status : Nat
  gasUsed : Nat
  deriving Repr, DecidableEq

deriving instance DecidableEq for Except

/-- The remote outcome of one transaction interaction: what
`contract[method](...args, overrides)` returns (or throws), and what
`txResponse.wait()` then returns (or throws). -/
structure TxAttempt where
  submit : Except JsError TxResponse
  wait : Except JsError Receipt
  deriving Repr, DecidableEq

/-- `executeTransaction` (src/utils.js lines 92-111): submit, wait for the
receipt, and treat a mined receipt whose status is not 1 as a hard failure. -/
def executeTransaction (a : TxAttempt) : Except JsError Receipt :=
  match a.submit with
  | .error e => .error e
  | .ok _tx =>
    match a.wait with
    | .error e => .error e
    | .ok receipt =>
      if receipt.status = 1 then .ok receipt
      else .error ⟨"Transaction failed on-chain"⟩

/-- Is the character a decimal digit. -/
def charDigit (c : Char) : Bool := '0' ≤ c && c ≤ '9'

/-- Numeric value of a digit string. -/
def digitsVal (cs : List Char) : Nat :=
  cs.foldl (fun a c => 10 * a + (c.toNat - 48)) 0

/-- Split a character list at every occurrence of the separator. -/
def splitOnChar (c : Char) : List Char → List (List Char)
  | [] => [[]]
  | x :: xs =>
    if x == c then [] :: splitOnChar c xs
    else
      match splitOnChar c xs with
      | [] => [[x]]
      | y :: ys => (x :: y) :: ys

/-- Model of `ethers.parseUnits` (and `ethers.parseEther = parseUnits _ 18`)
on the non-negative decimal strings this program passes it: scale by
`10 ^ decimals`, rejecting malformed strings and fractional parts longer than
`decimals`. -/
def parseUnits (s : String) (decimals : Nat) : Except JsError Nat :=
  match splitOnChar '.' s.toList with
  | [w] =>
    if w.all charDigit then .ok (digitsVal w * 10 ^ decimals)
    else .error ⟨"invalid decimal string"⟩
  | [w, f] =>
    if w.all charDigit && f.all charDigit && decide (f.length ≤ decimals) then
      .ok (digitsVal w * 10 ^ decimals +
        digitsVal f * 10 ^ (decimals - f.length))
    else .error ⟨"invalid decimal string"⟩
  | _ => .error ⟨"invalid decimal string"⟩

/-- Drop trailing `'0'` characters. -/
def trimTrailingZeros (cs : List Char) : List Char :=
  (cs.reverse.dropWhile (fun c => c == '0')).reverse

/-- Left-pad a string with `'0'` to length `n`. -/
def padLeftZeros (s : String) (n : Nat) : String :=
  String.mk (List.replicate (n - s.length) '0') ++ s

/-- Model of `ethers.formatUnits` on non-negative values: the decimal string
with `decimals` fractional digits, trailing zeros trimmed, keeping at least
one fractional digit. -/
def formatUnits (v decimals : Nat) : String :=
  let fs := trimTrailingZeros (padLeftZeros (Nat.repr (v % 10 ^ decimals)) decimals).toList
  Nat.repr (v / 10 ^ decimals) ++ "." ++ (if fs.isEmpty then "0" else String.mk fs)

/-- Is the character a hexadecimal digit. -/
def isHexDigit (c : Char) : Bool :=
  charDigit c || ('a' ≤ c && c ≤ 'f') || ('A' ≤ c && c ≤ 'F')

/-- `privateKey?.match(/^0x[0-9a-fA-F]{64}$/)` succeeding (line 136). -/
def isValidPrivateKey (k : String) : Bool :=
  match k.toList with
  | '0' :: 'x' :: rest => rest.length == 64 && rest.all isHexDigit
  | _ => false

/-- `ethers.ZeroAddress`. -/
def zeroAddress : String := "0x0000000000000000000000000000000000000000"

/-- `opt || default` on strings: `null`/`undefined` and `""` are falsy. -/
def jsOrStr : Option String → String → String
  | none, d => d
  | some s, d => if s = "" then d else s

/-- Truthiness filter on an optional string: `none` and `""` become `none`. -/
def truthyStr : Option String → Option String
  | none => none
  | some s => if s = "" then none else some s

/-- The caller-supplied transfer request (argument object of `sendToken`). -/
structure TransferRequest where
  sourceChain : String
  destChain : String
  asset : String
  amount : String
  privateKey : String
  gasSettings : GasOverrides := {}
  recipient : Option String := none
  referral : Option String := none

/-- Outcomes of the remote interactions `sendToken` can perform, one field per
call site.  `probeOk` answers the liveness probe per endpoint URL;
`senderAddress` is the address `ethers.Wallet` derives from the private key
(local computation); `checksum` models `ethers.getAddress` on an explicit
recipient (pure, may throw on an invalid address). -/
structure ChainEnv where
  probeOk : String → Bool
  senderAddress : String
  checksum : String → Except JsError String
  feeDataRead : Except JsError FeeData
  decimalsRead : Except JsError Nat
  balanceRead : Except JsError Nat
  allowanceRead : Except JsError Nat
  approval : TxAttempt
  nativeDepositReferral : TxAttempt
  nativeDepositLegacy : TxAttempt
  erc20DepositReferral : TxAttempt
  erc20DepositLegacy : TxAttempt

/-- `recipient ? ethers.getAddress(recipient) : senderAddress`
(lines 144-146), with JS truthiness (an empty recipient string is falsy). -/
def resolveRecipient (env : ChainEnv) : Option String → Except JsError String
  | none => .ok env.senderAddress
  | some r => if r = "" then .ok env.senderAddress else env.checksum r

/-- `decimals = await erc20.decimals().catch(() => 18)` (line 209). -/
def decimalsOf : Except JsError Nat → Nat
  | .ok d => d
  | .error _ => 18

/-- The native deposit attempt pair (lines 168-193): try
`depositNative(destChainId, recipient, referral)` first; on any failure retry
once with the two-argument legacy shape; surface the fallback's outcome.
Returns the result together with the submission events, in order. -/
def nativeDeposit (env : ChainEnv) (destNum : Nat)
    (recipientAddress referralAddr : String) :
    Except JsError String × List NetEvent :=
  let ev1 := NetEvent.txSubmit "nativeDeposit" "depositNative"
    [Arg.nat destNum, Arg.str recipientAddress, Arg.str referralAddr]
  match executeTransaction env.nativeDepositReferral with
  | .ok receipt => (.ok receipt.hash, [ev1])
  | .error _ =>
    let ev2 := NetEvent.txSubmit "nativeDeposit" "depositNative"
      [Arg.nat destNum, Arg.str recipientAddress]
    match executeTransaction env.nativeDepositLegacy with
    | .ok receipt => (.ok receipt.hash, [ev1, ev2])
    | .error e => (.error e, [ev1, ev2])

/-- The ERC20 deposit attempt pair (lines 243-279): try
`depositERC20(token, amount, destChainId, recipient, referral)` first; on any
failure retry once with the four-argument legacy shape; surface the
fallback's outcome. -/
def erc20Deposit (env : ChainEnv) (tokenAddress : String)
    (parsedAmount destNum : Nat) (recipientAddress referralAddr : String) :
    Except JsError String × List NetEvent :=
  let ev1 := NetEvent.txSubmit "tokenBridgeTransfer" "depositERC20"
    [Arg.str tokenAddress, Arg.nat parsedAmount, Arg.nat destNum,
      Arg.str recipientAddress, Arg.str referralAddr]
  match executeTransaction env.erc20DepositReferral with
  | .ok receipt => (.ok receipt.hash, [ev1])
  | .error _ =>
    let ev2 := NetEvent.txSubmit "tokenBridgeTransfer" "depositERC20"
      [Arg.str tokenAddress, Arg.nat parsedAmount, Arg.nat destNum,
        Arg.str recipientAddress]
    match executeTransaction env.erc20DepositLegacy with
    | .ok receipt => (.ok receipt.hash, [ev1, ev2])
    | .error e => (.error e, [ev1, ev2])

/-- The approval-then-deposit tail of the token path (lines 219-279): if the
allowance is below the required amount, submit one approval for twice the
amount (its failure propagates with no fallback); then run the deposit
attempt pair. -/
def tokenPhase (env : ChainEnv) (bridgeAddress tokenAddress : String)
    (parsedAmount allowance destNum : Nat)
    (recipientAddress referralAddr : String) :
    Except JsError String × List NetEvent :=
  if allowance < parsedAmount then
    let ev := NetEvent.txSubmit "tokenApproval" "approve"
      [Arg.str bridgeAddress, Arg.nat (parsedAmount * 2)]
    match executeTransaction env.approval with
    | .error e => (.error e, [ev])
    | .ok _ =>
      let r := erc20Deposit env tokenAddress parsedAmount destNum
        recipientAddress referralAddr
      (r.1, ev :: r.2)
  else
    erc20Deposit env tokenAddress parsedAmount destNum recipientAddress
      referralAddr

/-- `sendToken` (src/utils.js lines 113-300).  The outer try/catch only logs
a diagnostic and rethrows, so it does not change the returned value.  Returns
the result (`tx.hash` of the successful deposit, or the thrown error), the
provider cache after the call, and the network calls issued, in order. -/
def sendToken (cfg : Config) (env : ChainEnv) (cache : PCache)
    (req : TransferRequest) :
    Except JsError String × PCache × List NetEvent :=
  if !jsTruthy (cfg.CHAINS req.sourceChain) ||
      !jsTruthy (cfg.CHAINS req.destChain) then
    (.error ⟨"Invalid chain configuration: " ++ req.sourceChain ++ " → " ++
      req.destChain⟩, cache, [])
  else if !isValidPrivateKey req.privateKey then
    (.error ⟨"Invalid private key format (must be 64 hex chars with 0x prefix)"⟩,
      cache, [])
  else
    match getProvider cfg env.probeOk cache req.sourceChain with
    | (.error e, cache2, evs) => (.error e, cache2, evs)
    | (.ok _provider, cache2, evs) =>
      match resolveRecipient env req.recipient with
      | .error e => (.error e, cache2, evs)
      | .ok recipientAddress =>
        let _gasParams := getGasParams env.feeDataRead req.gasSettings
        let evs := evs ++ [NetEvent.feeRead]
        match truthyStr (cfg.UNION_CONTRACT req.sourceChain) with
        | none =>
          (.error ⟨"Missing bridge address for " ++ req.sourceChain⟩, cache2, evs)
        | some bridgeAddress =>
          let destNum := (cfg.CHAINS req.destChain).getD 0
          let referralAddr := jsOrStr req.referral zeroAddress
          if req.asset = "native" ∨ req.asset = "NATIVE" then
            match parseUnits req.amount 18 with
            | .error e => (.error e, cache2, evs)
            | .ok _value =>
              let r := nativeDeposit env destNum recipientAddress referralAddr
              (r.1, cache2, evs ++ r.2)
          else
            match (if req.asset = "WETH" then cfg.TOKENS_WETH req.sourceChain
                   else some req.asset) with
            | none => (.error ⟨"invalid token contract address"⟩, cache2, evs)
            | some tokenAddress =>
              let decimals := decimalsOf env.decimalsRead
              let evs := evs ++ [NetEvent.decimalsRead]
              match parseUnits req.amount decimals with
              | .error e => (.error e, cache2, evs)
              | .ok parsedAmount =>
                let evs := evs ++ [NetEvent.balanceRead]
                match env.balanceRead with
                | .error e => (.error e, cache2, evs)
                | .ok balance =>
                  if balance < parsedAmount then
                    (.error ⟨"Insufficient balance. Need " ++ req.amount ++
                      ", has " ++ formatUnits balance decimals⟩, cache2, evs)
                  else
                    let evs := evs ++ [NetEvent.allowanceRead]
                    match env.allowanceRead with
                    | .error e => (.error e, cache2, evs)
                    | .ok allowance =>
                      let r := tokenPhase env bridgeAddress tokenAddress
                        parsedAmount allowance destNum recipientAddress
                        referralAddr
                      (r.1, cache2, evs ++ r.2)

/-- Is the event a transaction submission at all. -/
def isSubmit : NetEvent → Bool
  | .txSubmit _ _ _ => true
  | _ => false

/-- Is the event a transaction submission of the given operation. -/
def isSubmitOf (op : String) : NetEvent → Bool
  | .txSubmit o _ _ => o == op
  | _ => false

/-- Number of transaction submissions in a trace. -/
def countSubmits (tr : List NetEvent) : Nat := (tr.filter isSubmit).length

/-- Number of submissions of one operation in a trace. -/
def countOp (op : String) (tr : List NetEvent) : Nat :=
  (tr.filter (isSubmitOf op)).length

/-! ### Concrete fixtures

A small concrete configuration and environment, used to instantiate the
theorems below at explicit inputs. -/

/-- A concrete configuration: two known chains, one primary endpoint and one
fallback for `sepolia`, a bridge contract and a WETH address. -/
def cfg0 : Config where
  CHAINS c := if c = "sepolia" then some 11155111
    else if c = "holesky" then some 17000 else none
  RPC_URLS c := if c = "sepolia" then some "https://rpc1" else none
  RPC_FALLBACKS c := if c = "sepolia" then ["https://rpc2"] else []
  UNION_CONTRACT c := if c = "sepolia" then some "0xBRIDGE" else none
  TOKENS_WETH c := if c = "sepolia" then some "0xWETH" else none

/-- A probe answer: only the fallback endpoint is live. -/
def probeOk0 : String → Bool := fun u => u == "https://rpc2"

/-- A transaction interaction that succeeds with hash `0xh1`. -/
def okAttempt : TxAttempt :=
  ⟨.ok ⟨"0xh1", 100000, 12, 6⟩, .ok ⟨"0xh1", 1, 21000⟩⟩

/-- A transaction interaction that succeeds with hash `0xh2`. -/
def okAttempt2 : TxAttempt :=
  ⟨.ok ⟨"0xh2", 100000, 12, 6⟩, .ok ⟨"0xh2", 1, 21000⟩⟩

/-- A transaction interaction whose submission is rejected. -/
def badAttempt : TxAttempt := ⟨.error ⟨"boom"⟩, .error ⟨"unreached"⟩⟩

/-- A concrete remote environment: the referral-signature deposit calls fail,
the legacy-signature ones succeed. -/
def env0 : ChainEnv where
  probeOk := probeOk0
  senderAddress := "0xSENDER"
  checksum r := .ok r
  feeDataRead := .ok ⟨some 10, some 5⟩
  decimalsRead := .ok 6
  balanceRead := .ok 5000000
  allowanceRead := .ok 0
  approval := okAttempt
  nativeDepositReferral := badAttempt
  nativeDepositLegacy := okAttempt2
  erc20DepositReferral := badAttempt
  erc20DepositLegacy := okAttempt2

/-- A well-formed concrete private key. -/
def key0 : String := "0x" ++ String.mk (List.replicate 64 'a')

/-- A concrete native transfer request. -/
def req0 : TransferRequest where
  sourceChain := "sepolia"
  destChain := "holesky"
  asset := "native"
  amount := "1.5"
  privateKey := key0

/-! ## Theorems -/

/-- C2: for every transaction submitted by the Transfer Executor, if the
transaction is mined but the receipt's on-chain status is not success (1),
`executeTransaction` fails with the on-chain execution error
`Transaction failed on-chain` and is never reported as success, even though a
receipt was obtained. -/
theorem executeTransaction_reverted_fails (a : TxAttempt) (tx : TxResponse)
    (r : Receipt) (hs : a.submit = .ok tx) (hw : a.wait = .ok r)
    (hr : r.status ≠ 1) :
    executeTransaction a = .error ⟨"Transaction failed on-chain"⟩ ∧
      ∀ r2 : Receipt, executeTransaction a ≠ .ok r2 := by
  unfold executeTransaction
  rw [hs, hw]
  simp [hr]

/-- Witness for C2: a mined-but-reverted receipt (status 0) at a concrete
attempt. -/
theorem executeTransaction_reverted_fails_witness :
    executeTransaction ⟨.ok ⟨"0xabc", 100000, 12, 6⟩, .ok ⟨"0xabc", 0, 21000⟩⟩ =
      .error ⟨"Transaction failed on-chain"⟩ :=
  (executeTransaction_reverted_fails
    ⟨.ok ⟨"0xabc", 100000, 12, 6⟩, .ok ⟨"0xabc", 0, 21000⟩⟩
    ⟨"0xabc", 100000, 12, 6⟩ ⟨"0xabc", 0, 21000⟩
    rfl rfl (by decide)).1

/-- C7 counterexample: with live fee data available (max fee 0, priority fee
5) and no overrides, the returned max fee is the 20 gwei fixed fallback, not
`0 * 125 / 100 = 0`: a zero live value is falsy, so `||` falls through to the
fixed default instead of the scaled live value. -/
theorem getGasParams_live_zero_not_scaled :
    (getGasParams (.ok { maxFeePerGas := some 0, maxPriorityFeePerGas := some 5 })
        {}).maxFeePerGas ≠ 0 * 125 / 100 := by
  decide

/-- C7 (amended): when live fee data is available with non-zero values and no
overrides are supplied, `getGasParams` returns max fee `live * 125 / 100`,
priority fee `live * 125 / 100` (integer division) and gas limit 500000; zero
live values instead fall through to the fixed defaults. -/
theorem getGasParams_live_markup (fd : FeeData) (mf mp : Nat)
    (hmf : fd.maxFeePerGas = some mf) (hmp : fd.maxPriorityFeePerGas = some mp)
    (hmf0 : mf ≠ 0) (hmp0 : mp ≠ 0) :
    getGasParams (.ok fd) {} =
      { maxFeePerGas := mf * 125 / 100,
        maxPriorityFeePerGas := mp * 125 / 100,
        gasLimit := 500000 } := by
  have h1 : ¬ mf * 125 / 100 = 0 := by
    rw [Nat.div_eq_zero_iff (by norm_num : (0:ℕ) < 100)]
    omega
  have h2 : ¬ mp * 125 / 100 = 0 := by
    rw [Nat.div_eq_zero_iff (by norm_num : (0:ℕ) < 100)]
    omega
  simp [getGasParams, feeComponent, liveMarkup, hmf, hmp, h1, h2]

/-- Witness for C7 (amended): live values 10 and 5 yield 12, 6 and 500000. -/
theorem getGasParams_live_markup_witness :
    getGasParams (.ok { maxFeePerGas := some 10, maxPriorityFeePerGas := some 5 })
        {} =
      { maxFeePerGas := 12, maxPriorityFeePerGas := 6, gasLimit := 500000 } := by
  have h := getGasParams_live_markup
    { maxFeePerGas := some 10, maxPriorityFeePerGas := some 5 } 10 5 rfl rfl
    (by decide) (by decide)
  simpa using h

/-- C8: `getGasParams` never fails outward (it is a total function into
`GasParams`); when the live fee data read throws, it returns exactly the
fixed fallback values — 20 gwei max fee, 15 gwei max priority fee, gas limit
500000 — for every override setting, without propagating the error. -/
theorem getGasParams_defaults_on_error (e : JsError) (ov : GasOverrides) :
    getGasParams (.error e) ov =
      { maxFeePerGas := 20 * gwei, maxPriorityFeePerGas := 15 * gwei,
        gasLimit := 500000 } :=
  rfl

/-- C9 counterexample: a supplied max-fee override of 7 is ignored when the
live fee data read fails — the catch branch returns the fixed 20 gwei
default, so the returned component does not equal the override. -/
theorem getGasParams_override_ignored_on_error :
    (getGasParams (.error ⟨"network error"⟩)
        { maxFeePerGas := some 7 }).maxFeePerGas ≠ 7 := by
  decide

/-- A fee component with a present (non-null) live value never throws. -/
theorem feeComponent_isOk (ov : Option Nat) (l fallback : Nat) :
    ∃ w, feeComponent ov (some l) fallback = .ok w := by
  rcases ov with _ | v
  · exact ⟨_, rfl⟩
  · by_cases hv : v = 0 <;> simp [feeComponent, liveMarkup, hv]

/-- A truthy (non-zero) override short-circuits the fee component. -/
theorem feeComponent_override (v : Nat) (hv : v ≠ 0) (live : Option Nat)
    (fallback : Nat) : feeComponent (some v) live fallback = .ok v := by
  simp [feeComponent, hv]

/-- C9 (amended): when the live fee data read succeeds and both live fee
fields are present, every supplied non-zero override (max fee, max priority
fee, gas limit) is returned verbatim in the corresponding component; when the
read fails the fixed defaults are returned regardless of overrides, and a
zero override is falsy and treated as absent. -/
theorem getGasParams_override_respected (fd : FeeData) (ov : GasOverrides)
    (mf mp : Nat) (hmf : fd.maxFeePerGas = some mf)
    (hmp : fd.maxPriorityFeePerGas = some mp) :
    (∀ v, ov.maxFeePerGas = some v → v ≠ 0 →
      (getGasParams (.ok fd) ov).maxFeePerGas = v) ∧
    (∀ v, ov.maxPriorityFeePerGas = some v → v ≠ 0 →
      (getGasParams (.ok fd) ov).maxPriorityFeePerGas = v) ∧
    (∀ v, ov.gasLimit = some v → v ≠ 0 →
      (getGasParams (.ok fd) ov).gasLimit = v) := by
  refine ⟨fun v hv hv0 => ?_, fun v hv hv0 => ?_, fun v hv hv0 => ?_⟩
  · obtain ⟨w2, hw2⟩ := feeComponent_isOk ov.maxPriorityFeePerGas mp
      defaultMaxPriorityFeePerGas
    simp [getGasParams, hmf, hmp, hv, feeComponent_override v hv0, hw2]
  · obtain ⟨w1, hw1⟩ := feeComponent_isOk ov.maxFeePerGas mf defaultMaxFeePerGas
    simp [getGasParams, hmf, hmp, hv, feeComponent_override v hv0, hw1]
  · obtain ⟨w1, hw1⟩ := feeComponent_isOk ov.maxFeePerGas mf defaultMaxFeePerGas
    obtain ⟨w2, hw2⟩ := feeComponent_isOk ov.maxPriorityFeePerGas mp
      defaultMaxPriorityFeePerGas
    simp [getGasParams, hmf, hmp, hv, hw1, hw2, hv0]

/-- Witness for C9 (amended): overrides 7, 8, 9 are all returned verbatim. -/
theorem getGasParams_override_respected_witness :
    (getGasParams (.ok { maxFeePerGas := some 10, maxPriorityFeePerGas := some 5 })
        { maxFeePerGas := some 7, maxPriorityFeePerGas := some 8,
          gasLimit := some 9 }).maxFeePerGas = 7 ∧
    (getGasParams (.ok { maxFeePerGas := some 10, maxPriorityFeePerGas := some 5 })
        { maxFeePerGas := some 7, maxPriorityFeePerGas := some 8,
          gasLimit := some 9 }).maxPriorityFeePerGas = 8 ∧
    (getGasParams (.ok { maxFeePerGas := some 10, maxPriorityFeePerGas := some 5 })
        { maxFeePerGas := some 7, maxPriorityFeePerGas := some 8,
          gasLimit := some 9 }).gasLimit = 9 := by
  have h := getGasParams_override_respected
    { maxFeePerGas := some 10, maxPriorityFeePerGas := some 5 }
    { maxFeePerGas := some 7, maxPriorityFeePerGas := some 8, gasLimit := some 9 }
    10 5 rfl rfl
  exact ⟨h.1 7 rfl (by decide), h.2.1 8 rfl (by decide), h.2.2 9 rfl (by decide)⟩

/-- The probe loop, in closed form: it probes the candidates in order up to
and including the first live one; if none is live it probes them all and
returns nothing. -/
theorem probeEndpoints_eq (cfg : Config) (probeOk : String → Bool)
    (cid : String) (ls : List String) :
    probeEndpoints cfg probeOk cid ls =
      match ls.find? probeOk with
      | some url =>
        (some (mkProvider cfg cid url),
          (ls.takeWhile (fun u => !probeOk u)).map NetEvent.probe ++
            [NetEvent.probe url])
      | none => (none, ls.map NetEvent.probe) := by
  induction ls with
  | nil => rfl
  | cons u rest ih =>
    by_cases hu : probeOk u
    · simp [probeEndpoints, hu, List.find?_cons, List.takeWhile_cons]
    · simp only [probeEndpoints, hu, if_false, Bool.false_eq_true, ih]
      cases h : rest.find? probeOk <;>
        simp [List.find?_cons, hu, h, List.takeWhile_cons, List.map_cons]

/-- Every network event emitted by `getProvider` is a liveness probe. -/
theorem getProvider_events_are_probes (cfg : Config) (probeOk : String → Bool)
    (cache : PCache) (cid : String) :
    ∀ e ∈ (getProvider cfg probeOk cache cid).2.2, ∃ u, e = NetEvent.probe u := by
  unfold getProvider
  cases hc : cache.lookup cid with
  | some p => simp
  | none =>
    rw [probeEndpoints_eq]
    cases hf : (endpointsFor cfg cid).find? probeOk with
    | some url =>
      simp only []
      intro e he
      rcases List.mem_append.1 he with h | h
      · obtain ⟨u, _, rfl⟩ := List.mem_map.1 h
        exact ⟨u, rfl⟩
      · simp at h
        exact ⟨url, h⟩
    | none =>
      simp only []
      intro e he
      obtain ⟨u, _, rfl⟩ := List.mem_map.1 he
      exact ⟨u, rfl⟩

/-- A trace of probes contains no transaction submissions. -/
theorem countSubmits_of_probes (tr : List NetEvent)
    (h : ∀ e ∈ tr, ∃ u, e = NetEvent.probe u) : countSubmits tr = 0 := by
  simp only [countSubmits, List.length_eq_zero, List.filter_eq_nil_iff]
  intro a ha
  obtain ⟨u, rfl⟩ := h a ha
  simp [isSubmit]

/-- A trace of probes contains no submissions of any operation. -/
theorem countOp_of_probes (op : String) (tr : List NetEvent)
    (h : ∀ e ∈ tr, ∃ u, e = NetEvent.probe u) : countOp op tr = 0 := by
  simp only [countOp, List.length_eq_zero, List.filter_eq_nil_iff]
  intro a ha
  obtain ⟨u, rfl⟩ := h a ha
  simp [isSubmitOf]

/-- C6: `getProvider` resolves a connection at most once per chain identifier.
First conjunct: whenever the cache already holds a provider for the chain,
the call returns exactly that cached provider, issues no network call at all,
and leaves the cache untouched (no re-probing, eviction or refresh) — this
covers every call after the first successful one.  Second conjunct: on a
cache miss, the candidates are probed in order up to the first live one,
whose provider is returned and stored under the chain identifier, so the
updated cache answers the next lookup with exactly that provider. -/
theorem getProvider_resolves_once (cfg : Config) (probeOk : String → Bool)
    (cache : PCache) (cid : String) :
    (∀ p, cache.lookup cid = some p →
      getProvider cfg probeOk cache cid = (.ok p, cache, [])) ∧
    (cache.lookup cid = none →
      ∀ url, (endpointsFor cfg cid).find? probeOk = some url →
        getProvider cfg probeOk cache cid =
          (.ok (mkProvider cfg cid url), (cid, mkProvider cfg cid url) :: cache,
            ((endpointsFor cfg cid).takeWhile (fun u => !probeOk u)).map
              NetEvent.probe ++ [NetEvent.probe url]) ∧
        List.lookup cid ((cid, mkProvider cfg cid url) :: cache) =
          some (mkProvider cfg cid url)) := by
  constructor
  · intro p hp
    unfold getProvider
    rw [hp]
  · intro hmiss url hfind
    refine ⟨?_, by simp [List.lookup]⟩
    unfold getProvider
    rw [hmiss, probeEndpoints_eq, hfind]

/-- Witness for C6: on the concrete configuration the failing primary is
skipped, the live fallback is cached, and the second call returns the cached
provider with no probing. -/
theorem getProvider_resolves_once_witness :
    getProvider cfg0 probeOk0 [] "sepolia" =
      (.ok (mkProvider cfg0 "sepolia" "https://rpc2"),
        [("sepolia", mkProvider cfg0 "sepolia" "https://rpc2")],
        [NetEvent.probe "https://rpc1", NetEvent.probe "https://rpc2"]) ∧
    getProvider cfg0 probeOk0
        [("sepolia", mkProvider cfg0 "sepolia" "https://rpc2")] "sepolia" =
      (.ok (mkProvider cfg0 "sepolia" "https://rpc2"),
        [("sepolia", mkProvider cfg0 "sepolia" "https://rpc2")], []) := by
  constructor
  · have h := ((getProvider_resolves_once cfg0 probeOk0 [] "sepolia").2
      (by rfl) "https://rpc2" (by rfl)).1
    rw [h]
    rfl
  · exact (getProvider_resolves_once cfg0 probeOk0
      [("sepolia", mkProvider cfg0 "sepolia" "https://rpc2")] "sepolia").1
      (mkProvider cfg0 "sepolia" "https://rpc2") (by rfl)

/-- C10: when every candidate endpoint fails the probe, `getProvider` throws
the all-endpoints-exhausted error naming the chain and returns the cache
unchanged — no entry is stored for the chain — and a subsequent call for the
same chain runs the identical full candidate probe again. -/
theorem getProvider_exhausted_cache_untouched (cfg : Config)
    (probeOk : String → Bool) (cache : PCache) (cid : String)
    (hmiss : cache.lookup cid = none)
    (hfail : ∀ u ∈ endpointsFor cfg cid, probeOk u = false) :
    getProvider cfg probeOk cache cid =
      (.error ⟨"All RPC endpoints failed for " ++ cid⟩, cache,
        (endpointsFor cfg cid).map NetEvent.probe) ∧
    getProvider cfg probeOk (getProvider cfg probeOk cache cid).2.1 cid =
      getProvider cfg probeOk cache cid := by
  have hfind : (endpointsFor cfg cid).find? probeOk = none := by
    apply List.find?_eq_none.mpr
    intro u hu
    simp [hfail u hu]
  have h1 : getProvider cfg probeOk cache cid =
      (.error ⟨"All RPC endpoints failed for " ++ cid⟩, cache,
        (endpointsFor cfg cid).map NetEvent.probe) := by
    unfold getProvider
    rw [hmiss, probeEndpoints_eq, hfind]
  exact ⟨h1, by rw [h1]; exact h1⟩

/-- Witness for C10: with no endpoint live, the concrete configuration yields
the exhausted error, an unchanged (empty) cache, and a full probe trace. -/
theorem getProvider_exhausted_cache_untouched_witness :
    getProvider cfg0 (fun _ => false) [] "sepolia" =
      (.error ⟨"All RPC endpoints failed for sepolia"⟩, [],
        (endpointsFor cfg0 "sepolia").map NetEvent.probe) := by
  exact (getProvider_exhausted_cache_untouched cfg0 (fun _ => false) []
    "sepolia" (by rfl) (by intro u _; rfl)).1

/-- Submission counts distribute over trace concatenation. -/
theorem countSubmits_append (a b : List NetEvent) :
    countSubmits (a ++ b) = countSubmits a + countSubmits b := by
  simp [countSubmits, List.filter_append]

/-- Per-operation submission counts distribute over trace concatenation. -/
theorem countOp_append (op : String) (a b : List NetEvent) :
    countOp op (a ++ b) = countOp op a + countOp op b := by
  simp [countOp, List.filter_append]

/-- Under the hypotheses that validation passes, the provider resolves, the
recipient resolves, the bridge address is configured, the asset is native and
the amount parses, `sendToken` reduces to the native deposit attempt pair. -/
theorem sendToken_native_reduced (cfg : Config) (env : ChainEnv)
    (cache : PCache) (req : TransferRequest) (ns nd : Nat) (p : Provider)
    (cache2 : PCache) (evs0 : List NetEvent) (ra ba : String) (value : Nat)
    (hsrc : cfg.CHAINS req.sourceChain = some ns) (hns : ns ≠ 0)
    (hdst : cfg.CHAINS req.destChain = some nd) (hnd : nd ≠ 0)
    (hkey : isValidPrivateKey req.privateKey = true)
    (hprov : getProvider cfg env.probeOk cache req.sourceChain =
      (.ok p, cache2, evs0))
    (hrec : resolveRecipient env req.recipient = .ok ra)
    (hbridge : truthyStr (cfg.UNION_CONTRACT req.sourceChain) = some ba)
    (hasset : req.asset = "native" ∨ req.asset = "NATIVE")
    (hparse : parseUnits req.amount 18 = .ok value) :
    sendToken cfg env cache req =
      ((nativeDeposit env nd ra (jsOrStr req.referral zeroAddress)).1, cache2,
        evs0 ++ NetEvent.feeRead ::
          (nativeDeposit env nd ra (jsOrStr req.referral zeroAddress)).2) := by
  simp only [sendToken, hsrc, hdst, hkey, hprov, hrec, hbridge, hparse]
  simp [jsTruthy, hns, hnd, hasset, List.append_assoc]

/-- Under the hypotheses that validation passes, the provider resolves, the
recipient resolves, the bridge address is configured, the asset is a token
that resolves to an address, the amount parses, and the balance and allowance
reads succeed with sufficient balance, `sendToken` reduces to the
approval-then-deposit tail. -/
theorem sendToken_token_reduced (cfg : Config) (env : ChainEnv)
    (cache : PCache) (req : TransferRequest) (ns nd : Nat) (p : Provider)
    (cache2 : PCache) (evs0 : List NetEvent) (ra ba ta : String)
    (pa bal al : Nat)
    (hsrc : cfg.CHAINS req.sourceChain = some ns) (hns : ns ≠ 0)
    (hdst : cfg.CHAINS req.destChain = some nd) (hnd : nd ≠ 0)
    (hkey : isValidPrivateKey req.privateKey = true)
    (hprov : getProvider cfg env.probeOk cache req.sourceChain =
      (.ok p, cache2, evs0))
    (hrec : resolveRecipient env req.recipient = .ok ra)
    (hbridge : truthyStr (cfg.UNION_CONTRACT req.sourceChain) = some ba)
    (hassetN : req.asset ≠ "native") (hassetN2 : req.asset ≠ "NATIVE")
    (hta : (if req.asset = "WETH" then cfg.TOKENS_WETH req.sourceChain
      else some req.asset) = some ta)
    (hparse : parseUnits req.amount (decimalsOf env.decimalsRead) = .ok pa)
    (hbal : env.balanceRead = .ok bal) (hge : ¬ bal < pa)
    (hal : env.allowanceRead = .ok al) :
    sendToken cfg env cache req =
      ((tokenPhase env ba ta pa al nd ra (jsOrStr req.referral zeroAddress)).1,
        cache2,
        evs0 ++ NetEvent.feeRead :: NetEvent.decimalsRead ::
          NetEvent.balanceRead :: NetEvent.allowanceRead ::
          (tokenPhase env ba ta pa al nd ra
            (jsOrStr req.referral zeroAddress)).2) := by
  simp only [sendToken, hsrc, hdst, hkey, hprov, hrec, hbridge, hta, hparse,
    hbal, hal]
  simp [jsTruthy, hns, hnd, hassetN, hassetN2, hge, List.append_assoc]

/-- C3: when the source or destination chain identifier is not configured
(falsy in `CHAINS`), or the signing key does not match `0x` + 64 hex digits,
`sendToken` fails immediately with the corresponding validation error, the
cache is untouched, and the network trace is empty — no endpoint probe, fee
read, balance read or transaction submission is issued. -/
theorem sendToken_validation_no_network (cfg : Config) (env : ChainEnv)
    (cache : PCache) (req : TransferRequest) :
    (jsTruthy (cfg.CHAINS req.sourceChain) = false ∨
        jsTruthy (cfg.CHAINS req.destChain) = false →
      sendToken cfg env cache req =
        (.error ⟨"Invalid chain configuration: " ++ req.sourceChain ++ " → " ++
          req.destChain⟩, cache, [])) ∧
    (jsTruthy (cfg.CHAINS req.sourceChain) = true →
      jsTruthy (cfg.CHAINS req.destChain) = true →
      isValidPrivateKey req.privateKey = false →
      sendToken cfg env cache req =
        (.error
          ⟨"Invalid private key format (must be 64 hex chars with 0x prefix)"⟩,
          cache, [])) := by
  constructor
  · rintro (h | h) <;> simp [sendToken, h]
  · intro h1 h2 h3
    simp [sendToken, h1, h2, h3]

/-- Witness for C3: an unknown destination chain and a malformed signing key
each fail with an empty network trace on the concrete configuration. -/
theorem sendToken_validation_no_network_witness :
    sendToken cfg0 env0 [] { req0 with destChain := "nochain" } =
      (.error ⟨"Invalid chain configuration: sepolia → nochain"⟩, [], []) ∧
    sendToken cfg0 env0 [] { req0 with privateKey := "0x12" } =
      (.error ⟨"Invalid private key format (must be 64 hex chars with 0x prefix)"⟩,
        [], []) := by
  constructor
  · exact (sendToken_validation_no_network cfg0 env0 []
      { req0 with destChain := "nochain" }).1 (Or.inr (by decide))
  · exact (sendToken_validation_no_network cfg0 env0 []
      { req0 with privateKey := "0x12" }).2 (by decide) (by decide) (by decide)

/-- C5: in the token path, when the sender's balance is strictly below the
requested amount in base units, `sendToken` fails with the
insufficient-balance error reporting the requested amount and the available
balance formatted with the token's decimals, and its trace contains no
transaction submission of any kind. -/
theorem sendToken_insufficient_balance (cfg : Config) (env : ChainEnv)
    (cache : PCache) (req : TransferRequest) (ns nd : Nat) (p : Provider)
    (cache2 : PCache) (evs0 : List NetEvent) (ra ba ta : String) (pa bal : Nat)
    (hsrc : cfg.CHAINS req.sourceChain = some ns) (hns : ns ≠ 0)
    (hdst : cfg.CHAINS req.destChain = some nd) (hnd : nd ≠ 0)
    (hkey : isValidPrivateKey req.privateKey = true)
    (hprov : getProvider cfg env.probeOk cache req.sourceChain =
      (.ok p, cache2, evs0))
    (hrec : resolveRecipient env req.recipient = .ok ra)
    (hbridge : truthyStr (cfg.UNION_CONTRACT req.sourceChain) = some ba)
    (hassetN : req.asset ≠ "native") (hassetN2 : req.asset ≠ "NATIVE")
    (hta : (if req.asset = "WETH" then cfg.TOKENS_WETH req.sourceChain
      else some req.asset) = some ta)
    (hparse : parseUnits req.amount (decimalsOf env.decimalsRead) = .ok pa)
    (hbal : env.balanceRead = .ok bal) (hlt : bal < pa) :
    sendToken cfg env cache req =
      (.error ⟨"Insufficient balance. Need " ++ req.amount ++ ", has " ++
        formatUnits bal (decimalsOf env.decimalsRead)⟩, cache2,
        evs0 ++ [NetEvent.feeRead, NetEvent.decimalsRead,
          NetEvent.balanceRead]) ∧
    countSubmits (sendToken cfg env cache req).2.2 = 0 := by
  have h1 : sendToken cfg env cache req =
      (.error ⟨"Insufficient balance. Need " ++ req.amount ++ ", has " ++
        formatUnits bal (decimalsOf env.decimalsRead)⟩, cache2,
        evs0 ++ [NetEvent.feeRead, NetEvent.decimalsRead,
          NetEvent.balanceRead]) := by
    simp only [sendToken, hsrc, hdst, hkey, hprov, hrec, hbridge, hta, hparse,
      hbal]
    simp [jsTruthy, hns, hnd, hassetN, hassetN2, hlt, List.append_assoc]
  refine ⟨h1, ?_⟩
  rw [h1]
  have hpr : ∀ e ∈ evs0, ∃ u, e = NetEvent.probe u := by
    have h := getProvider_events_are_probes cfg env.probeOk cache
      req.sourceChain
    rw [hprov] at h
    exact h
  show countSubmits (evs0 ++ [NetEvent.feeRead, NetEvent.decimalsRead,
    NetEvent.balanceRead]) = 0
  rw [countSubmits_append, countSubmits_of_probes evs0 hpr]
  rfl

/-- Witness for C5: requesting 9 tokens with balance 5000000 base units at 6
decimals fails, reporting `Need 9, has 5.0`, with no submission issued. -/
theorem sendToken_insufficient_balance_witness :
    sendToken cfg0 env0 [] { req0 with asset := "0xTOKEN", amount := "9" } =
      (.error ⟨"Insufficient balance. Need 9, has 5.0"⟩,
        [("sepolia", mkProvider cfg0 "sepolia" "https://rpc2")],
        [NetEvent.probe "https://rpc1", NetEvent.probe "https://rpc2",
          NetEvent.feeRead, NetEvent.decimalsRead, NetEvent.balanceRead]) := by
  have h := (sendToken_insufficient_balance cfg0 env0 []
    { req0 with asset := "0xTOKEN", amount := "9" } 11155111 17000
    (mkProvider cfg0 "sepolia" "https://rpc2")
    [("sepolia", mkProvider cfg0 "sepolia" "https://rpc2")]
    [NetEvent.probe "https://rpc1", NetEvent.probe "https://rpc2"]
    "0xSENDER" "0xBRIDGE" "0xTOKEN" 9000000 5000000
    (by decide) (by decide) (by decide) (by decide) (by decide) (by decide)
    (by decide) (by decide) (by decide) (by decide) (by decide) (by decide)
    (by decide) (by decide)).1
  rw [h]
  rfl

/-- A non-submission event at the head of a trace does not change a count. -/
theorem countOp_cons_of_neg (op : String) (e : NetEvent) (tr : List NetEvent)
    (h : isSubmitOf op e = false) : countOp op (e :: tr) = countOp op tr := by
  simp [countOp, h]

/-- The deposit attempt pair submits no approval calls. -/
theorem erc20Deposit_no_approval (env : ChainEnv) (ta : String) (pa dn : Nat)
    (ra rf : String) :
    countOp "tokenApproval" (erc20Deposit env ta pa dn ra rf).2 = 0 := by
  unfold erc20Deposit
  cases executeTransaction env.erc20DepositReferral with
  | ok r => simp [countOp, isSubmitOf]
  | error e =>
    cases executeTransaction env.erc20DepositLegacy with
    | ok r => simp [countOp, isSubmitOf]
    | error e2 => simp [countOp, isSubmitOf]

/-- C4: in the token path, when the allowance already covers the required
base-unit amount no approval call is submitted anywhere in the trace; when it
does not, the trace consists of a submission-free part, then exactly one
approval call for twice the required amount, then a remainder with no further
approval — so the single approval comes before any deposit submission. -/
theorem sendToken_approval_policy (cfg : Config) (env : ChainEnv)
    (cache : PCache) (req : TransferRequest) (ns nd : Nat) (p : Provider)
    (cache2 : PCache) (evs0 : List NetEvent) (ra ba ta : String)
    (pa bal al : Nat)
    (hsrc : cfg.CHAINS req.sourceChain = some ns) (hns : ns ≠ 0)
    (hdst : cfg.CHAINS req.destChain = some nd) (hnd : nd ≠ 0)
    (hkey : isValidPrivateKey req.privateKey = true)
    (hprov : getProvider cfg env.probeOk cache req.sourceChain =
      (.ok p, cache2, evs0))
    (hrec : resolveRecipient env req.recipient = .ok ra)
    (hbridge : truthyStr (cfg.UNION_CONTRACT req.sourceChain) = some ba)
    (hassetN : req.asset ≠ "native") (hassetN2 : req.asset ≠ "NATIVE")
    (hta : (if req.asset = "WETH" then cfg.TOKENS_WETH req.sourceChain
      else some req.asset) = some ta)
    (hparse : parseUnits req.amount (decimalsOf env.decimalsRead) = .ok pa)
    (hbal : env.balanceRead = .ok bal) (hge : ¬ bal < pa)
    (hal : env.allowanceRead = .ok al) :
    (pa ≤ al → countOp "tokenApproval" (sendToken cfg env cache req).2.2 = 0) ∧
    (al < pa →
      ∃ evsTail,
        (sendToken cfg env cache req).2.2 =
          (evs0 ++ [NetEvent.feeRead, NetEvent.decimalsRead,
            NetEvent.balanceRead, NetEvent.allowanceRead]) ++
            NetEvent.txSubmit "tokenApproval" "approve"
              [Arg.str ba, Arg.nat (pa * 2)] :: evsTail ∧
        countSubmits (evs0 ++ [NetEvent.feeRead, NetEvent.decimalsRead,
          NetEvent.balanceRead, NetEvent.allowanceRead]) = 0 ∧
        countOp "tokenApproval" evsTail = 0) := by
  have h := sendToken_token_reduced cfg env cache req ns nd p cache2 evs0 ra
    ba ta pa bal al hsrc hns hdst hnd hkey hprov hrec hbridge hassetN
    hassetN2 hta hparse hbal hge hal
  have hpr : ∀ e ∈ evs0, ∃ u, e = NetEvent.probe u := by
    have hg := getProvider_events_are_probes cfg env.probeOk cache
      req.sourceChain
    rw [hprov] at hg
    exact hg
  have htr : (sendToken cfg env cache req).2.2 =
      evs0 ++ NetEvent.feeRead :: NetEvent.decimalsRead ::
        NetEvent.balanceRead :: NetEvent.allowanceRead ::
        (tokenPhase env ba ta pa al nd ra
          (jsOrStr req.referral zeroAddress)).2 := by
    rw [h]
  constructor
  · intro hle
    have hnl : ¬ al < pa := not_lt.mpr hle
    rw [htr, countOp_append, countOp_of_probes _ evs0 hpr]
    rw [countOp_cons_of_neg _ _ _ (by rfl), countOp_cons_of_neg _ _ _ (by rfl),
      countOp_cons_of_neg _ _ _ (by rfl), countOp_cons_of_neg _ _ _ (by rfl)]
    simp only [tokenPhase, if_neg hnl]
    rw [erc20Deposit_no_approval]
  · intro hlt
    have hpre : countSubmits (evs0 ++ [NetEvent.feeRead, NetEvent.decimalsRead,
        NetEvent.balanceRead, NetEvent.allowanceRead]) = 0 := by
      rw [countSubmits_append, countSubmits_of_probes evs0 hpr]
      rfl
    cases happ : executeTransaction env.approval with
    | error e =>
      refine ⟨[], ?_, hpre, rfl⟩
      rw [htr]
      simp [tokenPhase, hlt, happ]
    | ok r0 =>
      refine ⟨(erc20Deposit env ta pa nd ra
        (jsOrStr req.referral zeroAddress)).2, ?_, hpre,
        erc20Deposit_no_approval env ta pa nd ra
          (jsOrStr req.referral zeroAddress)⟩
      rw [htr]
      simp [tokenPhase, hlt, happ]

/-- Witness for C4: with allowance 10000000 ≥ 2000000 no approval appears in
the trace; with allowance 0 < 2000000 the trace splits around one approval
for 4000000 = 2 × 2000000. -/
theorem sendToken_approval_policy_witness :
    countOp "tokenApproval"
      (sendToken cfg0 { env0 with allowanceRead := .ok 10000000 } []
        { req0 with asset := "0xTOKEN", amount := "2" }).2.2 = 0 ∧
    (∃ evsTail,
      (sendToken cfg0 env0 []
        { req0 with asset := "0xTOKEN", amount := "2" }).2.2 =
        ([NetEvent.probe "https://rpc1", NetEvent.probe "https://rpc2"] ++
          [NetEvent.feeRead, NetEvent.decimalsRead, NetEvent.balanceRead,
            NetEvent.allowanceRead]) ++
          NetEvent.txSubmit "tokenApproval" "approve"
            [Arg.str "0xBRIDGE", Arg.nat (2000000 * 2)] :: evsTail ∧
      countSubmits ([NetEvent.probe "https://rpc1",
        NetEvent.probe "https://rpc2"] ++
        [NetEvent.feeRead, NetEvent.decimalsRead, NetEvent.balanceRead,
          NetEvent.allowanceRead]) = 0 ∧
      countOp "tokenApproval" evsTail = 0) := by
  constructor
  · exact (sendToken_approval_policy cfg0
      { env0 with allowanceRead := .ok 10000000 } []
      { req0 with asset := "0xTOKEN", amount := "2" } 11155111 17000
      (mkProvider cfg0 "sepolia" "https://rpc2")
      [("sepolia", mkProvider cfg0 "sepolia" "https://rpc2")]
      [NetEvent.probe "https://rpc1", NetEvent.probe "https://rpc2"]
      "0xSENDER" "0xBRIDGE" "0xTOKEN" 2000000 5000000 10000000
      (by decide) (by decide) (by decide) (by decide) (by decide) (by decide)
      (by decide) (by decide) (by decide) (by decide) (by decide) (by decide)
      (by decide) (by decide) (by decide)).1 (by decide)
  · exact (sendToken_approval_policy cfg0 env0 []
      { req0 with asset := "0xTOKEN", amount := "2" } 11155111 17000
      (mkProvider cfg0 "sepolia" "https://rpc2")
      [("sepolia", mkProvider cfg0 "sepolia" "https://rpc2")]
      [NetEvent.probe "https://rpc1", NetEvent.probe "https://rpc2"]
      "0xSENDER" "0xBRIDGE" "0xTOKEN" 2000000 5000000 0
      (by decide) (by decide) (by decide) (by decide) (by decide) (by decide)
      (by decide) (by decide) (by decide) (by decide) (by decide) (by decide)
      (by decide) (by decide) (by decide)).2 (by decide)

/-- When the referral-signature native deposit fails, the pair resolves to
the legacy attempt's outcome, with both submissions in the trace. -/
theorem nativeDeposit_fallback (env : ChainEnv) (dn : Nat) (ra rf : String)
    (e1 : JsError)
    (href : executeTransaction env.nativeDepositReferral = .error e1) :
    (∀ r2, executeTransaction env.nativeDepositLegacy = .ok r2 →
      nativeDeposit env dn ra rf = (.ok r2.hash,
        [NetEvent.txSubmit "nativeDeposit" "depositNative"
          [Arg.nat dn, Arg.str ra, Arg.str rf],
         NetEvent.txSubmit "nativeDeposit" "depositNative"
          [Arg.nat dn, Arg.str ra]])) ∧
    (∀ e2, executeTransaction env.nativeDepositLegacy = .error e2 →
      nativeDeposit env dn ra rf = (.error e2,
        [NetEvent.txSubmit "nativeDeposit" "depositNative"
          [Arg.nat dn, Arg.str ra, Arg.str rf],
         NetEvent.txSubmit "nativeDeposit" "depositNative"
          [Arg.nat dn, Arg.str ra]])) := by
  constructor <;> intro x hx <;> simp [nativeDeposit, href, hx]

/-- When the referral-signature native deposit fails, exactly the two deposit
submissions are traced, whatever the legacy outcome. -/
theorem nativeDeposit_events_on_fallback (env : ChainEnv) (dn : Nat)
    (ra rf : String) (e1 : JsError)
    (href : executeTransaction env.nativeDepositReferral = .error e1) :
    (nativeDeposit env dn ra rf).2 =
      [NetEvent.txSubmit "nativeDeposit" "depositNative"
        [Arg.nat dn, Arg.str ra, Arg.str rf],
       NetEvent.txSubmit "nativeDeposit" "depositNative"
        [Arg.nat dn, Arg.str ra]] := by
  unfold nativeDeposit
  rw [href]
  cases executeTransaction env.nativeDepositLegacy <;> rfl

/-- When the referral-signature ERC20 deposit fails, the pair resolves to the
legacy attempt's outcome, with both submissions in the trace. -/
theorem erc20Deposit_fallback (env : ChainEnv) (ta : String) (pa dn : Nat)
    (ra rf : String) (e1 : JsError)
    (href : executeTransaction env.erc20DepositReferral = .error e1) :
    (∀ r2, executeTransaction env.erc20DepositLegacy = .ok r2 →
      erc20Deposit env ta pa dn ra rf = (.ok r2.hash,
        [NetEvent.txSubmit "tokenBridgeTransfer" "depositERC20"
          [Arg.str ta, Arg.nat pa, Arg.nat dn, Arg.str ra, Arg.str rf],
         NetEvent.txSubmit "tokenBridgeTransfer" "depositERC20"
          [Arg.str ta, Arg.nat pa, Arg.nat dn, Arg.str ra]])) ∧
    (∀ e2, executeTransaction env.erc20DepositLegacy = .error e2 →
      erc20Deposit env ta pa dn ra rf = (.error e2,
        [NetEvent.txSubmit "tokenBridgeTransfer" "depositERC20"
          [Arg.str ta, Arg.nat pa, Arg.nat dn, Arg.str ra, Arg.str rf],
         NetEvent.txSubmit "tokenBridgeTransfer" "depositERC20"
          [Arg.str ta, Arg.nat pa, Arg.nat dn, Arg.str ra]])) := by
  constructor <;> intro x hx <;> simp [erc20Deposit, href, hx]

/-- When the referral-signature ERC20 deposit fails, exactly the two deposit
submissions are traced, whatever the legacy outcome. -/
theorem erc20Deposit_events_on_fallback (env : ChainEnv) (ta : String)
    (pa dn : Nat) (ra rf : String) (e1 : JsError)
    (href : executeTransaction env.erc20DepositReferral = .error e1) :
    (erc20Deposit env ta pa dn ra rf).2 =
      [NetEvent.txSubmit "tokenBridgeTransfer" "depositERC20"
        [Arg.str ta, Arg.nat pa, Arg.nat dn, Arg.str ra, Arg.str rf],
       NetEvent.txSubmit "tokenBridgeTransfer" "depositERC20"
        [Arg.str ta, Arg.nat pa, Arg.nat dn, Arg.str ra]] := by
  unfold erc20Deposit
  rw [href]
  cases executeTransaction env.erc20DepositLegacy <;> rfl

/-- C1: in both the native and the token deposit path, when the deposit call
carrying the referral argument fails — for any reason — exactly one retry is
made with the referral argument omitted (the trace holds exactly two deposit
submissions, the second with the reduced argument list); if the fallback
succeeds `sendToken` returns the fallback's transaction hash, and if the
fallback also fails `sendToken` fails with the fallback's error. -/
theorem sendToken_referral_fallback (cfg : Config) (env : ChainEnv)
    (cache : PCache) (req : TransferRequest) (ns nd : Nat) (p : Provider)
    (cache2 : PCache) (evs0 : List NetEvent) (ra ba : String)
    (hsrc : cfg.CHAINS req.sourceChain = some ns) (hns : ns ≠ 0)
    (hdst : cfg.CHAINS req.destChain = some nd) (hnd : nd ≠ 0)
    (hkey : isValidPrivateKey req.privateKey = true)
    (hprov : getProvider cfg env.probeOk cache req.sourceChain =
      (.ok p, cache2, evs0))
    (hrec : resolveRecipient env req.recipient = .ok ra)
    (hbridge : truthyStr (cfg.UNION_CONTRACT req.sourceChain) = some ba) :
    ((req.asset = "native" ∨ req.asset = "NATIVE") →
      ∀ value, parseUnits req.amount 18 = .ok value →
      ∀ e1, executeTransaction env.nativeDepositReferral = .error e1 →
        (∀ r2, executeTransaction env.nativeDepositLegacy = .ok r2 →
          sendToken cfg env cache req = (.ok r2.hash, cache2,
            evs0 ++ [NetEvent.feeRead,
              NetEvent.txSubmit "nativeDeposit" "depositNative"
                [Arg.nat nd, Arg.str ra,
                  Arg.str (jsOrStr req.referral zeroAddress)],
              NetEvent.txSubmit "nativeDeposit" "depositNative"
                [Arg.nat nd, Arg.str ra]])) ∧
        (∀ e2, executeTransaction env.nativeDepositLegacy = .error e2 →
          sendToken cfg env cache req = (.error e2, cache2,
            evs0 ++ [NetEvent.feeRead,
              NetEvent.txSubmit "nativeDeposit" "depositNative"
                [Arg.nat nd, Arg.str ra,
                  Arg.str (jsOrStr req.referral zeroAddress)],
              NetEvent.txSubmit "nativeDeposit" "depositNative"
                [Arg.nat nd, Arg.str ra]])) ∧
        countOp "nativeDeposit" (sendToken cfg env cache req).2.2 = 2) ∧
    (req.asset ≠ "native" → req.asset ≠ "NATIVE" →
      ∀ ta, (if req.asset = "WETH" then cfg.TOKENS_WETH req.sourceChain
        else some req.asset) = some ta →
      ∀ pa, parseUnits req.amount (decimalsOf env.decimalsRead) = .ok pa →
      ∀ bal, env.balanceRead = .ok bal → ¬ bal < pa →
      ∀ al, env.allowanceRead = .ok al →
      (al < pa → ∃ r0, executeTransaction env.approval = .ok r0) →
      ∀ e1, executeTransaction env.erc20DepositReferral = .error e1 →
        (∀ r2, executeTransaction env.erc20DepositLegacy = .ok r2 →
          sendToken cfg env cache req = (.ok r2.hash, cache2,
            (evs0 ++ [NetEvent.feeRead, NetEvent.decimalsRead,
              NetEvent.balanceRead, NetEvent.allowanceRead]) ++
              (if al < pa then
                [NetEvent.txSubmit "tokenApproval" "approve"
                  [Arg.str ba, Arg.nat (pa * 2)]] else []) ++
              [NetEvent.txSubmit "tokenBridgeTransfer" "depositERC20"
                [Arg.str ta, Arg.nat pa, Arg.nat nd, Arg.str ra,
                  Arg.str (jsOrStr req.referral zeroAddress)],
               NetEvent.txSubmit "tokenBridgeTransfer" "depositERC20"
                [Arg.str ta, Arg.nat pa, Arg.nat nd, Arg.str ra]])) ∧
        (∀ e2, executeTransaction env.erc20DepositLegacy = .error e2 →
          sendToken cfg env cache req = (.error e2, cache2,
            (evs0 ++ [NetEvent.feeRead, NetEvent.decimalsRead,
              NetEvent.balanceRead, NetEvent.allowanceRead]) ++
              (if al < pa then
                [NetEvent.txSubmit "tokenApproval" "approve"
                  [Arg.str ba, Arg.nat (pa * 2)]] else []) ++
              [NetEvent.txSubmit "tokenBridgeTransfer" "depositERC20"
                [Arg.str ta, Arg.nat pa, Arg.nat nd, Arg.str ra,
                  Arg.str (jsOrStr req.referral zeroAddress)],
               NetEvent.txSubmit "tokenBridgeTransfer" "depositERC20"
                [Arg.str ta, Arg.nat pa, Arg.nat nd, Arg.str ra]])) ∧
        countOp "tokenBridgeTransfer" (sendToken cfg env cache req).2.2 = 2) := by
  have hpr : ∀ e ∈ evs0, ∃ u, e = NetEvent.probe u := by
    have hg := getProvider_events_are_probes cfg env.probeOk cache
      req.sourceChain
    rw [hprov] at hg
    exact hg
  constructor
  · intro hassetNat value hval e1 href
    have h := sendToken_native_reduced cfg env cache req ns nd p cache2 evs0
      ra ba value hsrc hns hdst hnd hkey hprov hrec hbridge hassetNat hval
    obtain ⟨hok, herr⟩ := nativeDeposit_fallback env nd ra
      (jsOrStr req.referral zeroAddress) e1 href
    refine ⟨?_, ?_, ?_⟩
    · intro r2 hr2
      rw [h, hok r2 hr2]
    · intro e2 he2
      rw [h, herr e2 he2]
    · have ht : (sendToken cfg env cache req).2.2 =
          evs0 ++ NetEvent.feeRead ::
            (nativeDeposit env nd ra (jsOrStr req.referral zeroAddress)).2 := by
        rw [h]
      rw [ht, nativeDeposit_events_on_fallback env nd ra
        (jsOrStr req.referral zeroAddress) e1 href, countOp_append,
        countOp_of_probes _ evs0 hpr]
      rfl
  · intro hn1 hn2 ta hta pa hparse bal hbal hge al hal happly e1 href
    have h := sendToken_token_reduced cfg env cache req ns nd p cache2 evs0
      ra ba ta pa bal al hsrc hns hdst hnd hkey hprov hrec hbridge hn1 hn2
      hta hparse hbal hge hal
    obtain ⟨hok, herr⟩ := erc20Deposit_fallback env ta pa nd ra
      (jsOrStr req.referral zeroAddress) e1 href
    have hev2 := erc20Deposit_events_on_fallback env ta pa nd ra
      (jsOrStr req.referral zeroAddress) e1 href
    have htp : tokenPhase env ba ta pa al nd ra
        (jsOrStr req.referral zeroAddress) =
        ((erc20Deposit env ta pa nd ra (jsOrStr req.referral zeroAddress)).1,
          (if al < pa then
            [NetEvent.txSubmit "tokenApproval" "approve"
              [Arg.str ba, Arg.nat (pa * 2)]] else []) ++
            (erc20Deposit env ta pa nd ra
              (jsOrStr req.referral zeroAddress)).2) := by
      by_cases hcase : al < pa
      · obtain ⟨r0, hr0⟩ := happly hcase
        simp [tokenPhase, hcase, hr0]
      · simp [tokenPhase, hcase]
    refine ⟨?_, ?_, ?_⟩
    · intro r2 hr2
      rw [h, htp, hok r2 hr2]
      simp [List.append_assoc]
    · intro e2 he2
      rw [h, htp, herr e2 he2]
      simp [List.append_assoc]
    · have ht : (sendToken cfg env cache req).2.2 =
          evs0 ++ NetEvent.feeRead :: NetEvent.decimalsRead ::
            NetEvent.balanceRead :: NetEvent.allowanceRead ::
            ((if al < pa then
              [NetEvent.txSubmit "tokenApproval" "approve"
                [Arg.str ba, Arg.nat (pa * 2)]] else []) ++
              (erc20Deposit env ta pa nd ra
                (jsOrStr req.referral zeroAddress)).2) := by
        rw [h, htp]
      rw [ht, hev2, countOp_append, countOp_of_probes _ evs0 hpr,
        countOp_cons_of_neg _ _ _ (by rfl), countOp_cons_of_neg _ _ _ (by rfl),
        countOp_cons_of_neg _ _ _ (by rfl), countOp_cons_of_neg _ _ _ (by rfl),
        countOp_append]
      by_cases hcase : al < pa <;> simp [hcase, countOp, isSubmitOf]

/-- Witness for C1: on the concrete environment the referral-signature
deposit is rejected and the legacy retry succeeds with hash `0xh2`, in both
the native and the token path, with exactly two deposit submissions each. -/
theorem sendToken_referral_fallback_witness :
    sendToken cfg0 env0 [] req0 = (.ok "0xh2",
      [("sepolia", mkProvider cfg0 "sepolia" "https://rpc2")],
      [NetEvent.probe "https://rpc1", NetEvent.probe "https://rpc2",
        NetEvent.feeRead,
        NetEvent.txSubmit "nativeDeposit" "depositNative"
          [Arg.nat 17000, Arg.str "0xSENDER", Arg.str zeroAddress],
        NetEvent.txSubmit "nativeDeposit" "depositNative"
          [Arg.nat 17000, Arg.str "0xSENDER"]]) ∧
    sendToken cfg0 env0 [] { req0 with asset := "0xTOKEN", amount := "2" } =
      (.ok "0xh2",
        [("sepolia", mkProvider cfg0 "sepolia" "https://rpc2")],
        [NetEvent.probe "https://rpc1", NetEvent.probe "https://rpc2",
          NetEvent.feeRead, NetEvent.decimalsRead, NetEvent.balanceRead,
          NetEvent.allowanceRead,
          NetEvent.txSubmit "tokenApproval" "approve"
            [Arg.str "0xBRIDGE", Arg.nat 4000000],
          NetEvent.txSubmit "tokenBridgeTransfer" "depositERC20"
            [Arg.str "0xTOKEN", Arg.nat 2000000, Arg.nat 17000,
              Arg.str "0xSENDER", Arg.str zeroAddress],
          NetEvent.txSubmit "tokenBridgeTransfer" "depositERC20"
            [Arg.str "0xTOKEN", Arg.nat 2000000, Arg.nat 17000,
              Arg.str "0xSENDER"]]) := by
  constructor
  · have hN := (sendToken_referral_fallback cfg0 env0 [] req0 11155111 17000
      (mkProvider cfg0 "sepolia" "https://rpc2")
      [("sepolia", mkProvider cfg0 "sepolia" "https://rpc2")]
      [NetEvent.probe "https://rpc1", NetEvent.probe "https://rpc2"]
      "0xSENDER" "0xBRIDGE"
      (by decide) (by decide) (by decide) (by decide) (by decide) (by decide)
      (by decide) (by decide)).1 (Or.inl (by decide)) 1500000000000000000
      (by decide) ⟨"boom"⟩ (by decide)
    have h2 := hN.1 ⟨"0xh2", 1, 21000⟩ (by decide)
    rw [h2]
    decide
  · have hT := (sendToken_referral_fallback cfg0 env0 []
      { req0 with asset := "0xTOKEN", amount := "2" } 11155111 17000
      (mkProvider cfg0 "sepolia" "https://rpc2")
      [("sepolia", mkProvider cfg0 "sepolia" "https://rpc2")]
      [NetEvent.probe "https://rpc1", NetEvent.probe "https://rpc2"]
      "0xSENDER" "0xBRIDGE"
      (by decide) (by decide) (by decide) (by decide) (by decide) (by decide)
      (by decide) (by decide)).2 (by decide) (by decide) "0xTOKEN"
      (by decide) 2000000 (by decide) 5000000 (by decide) (by decide) 0
      (by decide) (fun _ => ⟨⟨"0xh1", 1, 21000⟩, by decide⟩) ⟨"boom"⟩
      (by decide)
    have h2 := hT.1 ⟨"0xh2", 1, 21000⟩ (by decide)
    rw [h2]
    decide

end UnionV2
